import Mathlib

/-!
Verification of the gcs-deployer MCP server (src/src/gcs-deploy.ts and the
ConfigManager module) against its natural-language specification.

The TypeScript source is shallowly embedded: JavaScript objects with
possibly-undefined string fields become `Option String` (`none` = the
JS value `undefined`), object literals passed to `ConfigManager.save`
become `ConfigUpdate` (`none` = the key is absent from the literal,
`some none` = the key is present with value `undefined` — the two behave
differently under JS object spread), exceptions become `Except JsError`,
and the external collaborators (file system, object store, child
processes) are parameters of the embedded functions collected in
`ServerEnv`.
-/

/-- A JavaScript error value as the source observes it: `code` (the numeric
status the classifier compares to 401; Node fs errors carry a string code
such as ENOENT, which is never equal to the number 401 and is modelled as
`none`) and `message`. -/
structure JsError where
  code : Option Int
  message : Option String
deriving Repr, DecidableEq

/-- JS truthiness of a possibly-undefined string: `undefined` and the empty
string are falsy, every other string is truthy. -/
def jsTruthy : Option String → Bool
  | none => false
  | some s => s ≠ ""

/-- JS `x || ''` on a possibly-undefined string. -/
def jsOrEmpty : Option String → String
  | none => ""
  | some s => s

/-- String interpolation of a possibly-undefined JS string: `undefined`
prints as the text "undefined". -/
def jsToStr : Option String → String
  | none => "undefined"
  | some s => s

/-- Interpolation of `error.message` in a template literal. -/
def jsMessage (e : JsError) : String :=
  jsToStr e.message

/-- JS `String.prototype.substring(a, b)`: indices are clamped to the string
length and swapped when out of order; the characters in `[lo, hi)` are
returned. (The strings involved are ASCII, so code units = characters.) -/
def jsSubstring (s : String) (a b : Nat) : String :=
  let cs := s.toList
  let n := cs.length
  let lo := min (min a n) (min b n)
  let hi := max (min a n) (min b n)
  String.mk ((cs.drop lo).take (hi - lo))

/-- The persisted configuration record (`GcsDeployerConfig` in config.ts):
the JSON file's three optional string fields; `none` = the key is absent
from the stored record. -/
structure GcsDeployerConfig where
  projectId : Option String := none
  bucketName : Option String := none
  subfolder : Option String := none
deriving Repr, DecidableEq

/-- An object literal passed to `ConfigManager.save`. Outer `none`: the key
does not appear in the literal (JS spread keeps the existing value).
`some none`: the key appears with value `undefined` (JS spread copies it,
overwriting the existing value, and `JSON.stringify` then drops the key).
`some (some s)`: the key appears with a string value. -/
structure ConfigUpdate where
  projectId : Option (Option String) := none
  bucketName : Option (Option String) := none
  subfolder : Option (Option String) := none
deriving Repr, DecidableEq

/-- One field of `{ ...existing, ...config }` followed by `JSON.stringify`
(which drops `undefined`-valued keys): a key absent from the update keeps
the existing value; a key present in the update replaces it, with value
`undefined` deleting the key from the stored record. -/
def spreadField (existing : Option String) (upd : Option (Option String)) :
    Option String :=
  match upd with
  | none => existing
  | some v => v

/-- `ConfigManager.save` (config.ts, lines 34-46) without its write-failure
path: loads the existing record, computes `{ ...existing, ...config }` and
writes the `JSON.stringify` of the result. The write-failure path (save
re-throws the fs error and leaves the stored record unchanged) is modelled
at the call sites via `ServerEnv.writeErr`. -/
def ConfigManager.save (existing : GcsDeployerConfig) (upd : ConfigUpdate) :
    GcsDeployerConfig :=
  { projectId := spreadField existing.projectId upd.projectId
    bucketName := spreadField existing.bucketName upd.bucketName
    subfolder := spreadField existing.subfolder upd.subfolder }

/-- `fs.statSync(sourcePath)` as `deploy` consumes it: the path is missing
(statSync throws ENOENT), a regular file, a directory — abstracted to the
list of relative file paths that `getAllFiles` + `path.relative` produce
for it, since no claim concerns the traversal itself — or something that is
neither a file nor a directory. -/
inductive StatResult where
  | missing
  | statFile
  | statDir (relFiles : List String)
  | special
deriving Repr, DecidableEq

/-- Outcome of the `gcloud auth application-default login` child process:
the spawn fails (the child emits an error event), or the process exits
with the given code. -/
inductive AuthFlowOutcome where
  | spawnError (msg : String)
  | exited (code : Int)
deriving Repr, DecidableEq

/-- The error `fs.statSync` throws for a missing path. -/
def enoentError (p : String) : JsError :=
  { code := none, message := some ("ENOENT: no such file or directory, stat '" ++ p ++ "'") }

/-- First known auth-failure substring (google-auth-library). -/
def authSubstringCreds : String := "Could not load the default credentials"

/-- Second known auth-failure substring (anonymous-access denial). -/
def authSubstringAnon : String := "Anonymous caller does not have storage.objects.create access"

/-- JS `String.prototype.includes` as a substring search over character
lists: the needle occurs contiguously somewhere in the haystack. -/
def subsearch (needle : List Char) : List Char → Bool
  | [] => needle.isEmpty
  | c :: t => needle.isPrefixOf (c :: t) || subsearch needle t

/-- `haystack.includes(needle)` on strings. -/
def strIncludes (haystack needle : String) : Bool :=
  subsearch needle.toList haystack.toList

/-- The `isAuthError` classification in `deploy` (gcs-deploy.ts, lines
255-260): status code strictly equal to the number 401, or a truthy
message containing one of the two known substrings. -/
def isAuthError (e : JsError) : Bool :=
  e.code == some 401 ||
    (match e.message with
     | none => false
     | some m =>
       m ≠ "" && (strIncludes m authSubstringCreds || strIncludes m authSubstringAnon))

/-- `attemptAutoAuth` (gcs-deploy.ts, lines 278-309): resolves when the
login child exits 0; rejects with the spawn error when the child cannot be
launched, or with `gcloud exited with code N` on a non-zero exit. -/
def attemptAutoAuth : AuthFlowOutcome → Except JsError Unit
  | AuthFlowOutcome.spawnError m => Except.error { code := none, message := some m }
  | AuthFlowOutcome.exited c =>
    if c = 0 then Except.ok ()
    else Except.error { code := none, message := some ("gcloud exited with code " ++ toString c) }

/-- JS `try { body } catch (e) { handler }` over our exception monad. -/
def jsTryCatch {α : Type} (body : Except JsError α)
    (handler : JsError → Except JsError α) : Except JsError α :=
  match body with
  | Except.ok a => Except.ok a
  | Except.error e => handler e

/-- The message the `deploy` catch block constructs after a successful
login launch. -/
def constructedAuthMsg : String :=
  "Authentication was missing. I have launched the \"gcloud auth application-default login\" command in a new window. Please complete the login process there and then try this request again."

/-- The auth branch of the `deploy` catch block (gcs-deploy.ts, lines
262-271), transcribed with its try/catch structure intact:
`try { await attemptAutoAuth(); throw new Error(constructed) }
catch (authError) { throw new Error("Authentication failed and could not
launch gcloud: " + authError.message + ". Original error: " + error.message) }`.
`origMsg` is the interpolation of the original upload error's message. -/
def authRecoveryThrow (auth : AuthFlowOutcome) (origMsg : String) :
    Except JsError (List String) :=
  jsTryCatch
    (match attemptAutoAuth auth with
     | Except.error e => Except.error e
     | Except.ok _ => Except.error { code := none, message := some constructedAuthMsg })
    (fun authError =>
      Except.error
        { code := none
          message := some ("Authentication failed and could not launch gcloud: " ++
            jsMessage authError ++ ". Original error: " ++ origMsg) })

/-- `path.basename`: the last non-empty `/`-separated component. -/
def pathBasename (p : String) : String :=
  List.getLastD ((p.splitOn "/").filter (fun s => s ≠ "")) p

/-- `path.join` of a destination folder and a relative key (normalisation
of dots is irrelevant to the paths the claims use). -/
def pathJoin (a b : String) : String :=
  if a = "" then b else if b = "" then a else a ++ "/" ++ b

/-- The public URL `uploadFile` returns for an uploaded destination key. -/
def publicUrl (bucketName destination : String) : String :=
  "https://storage.googleapis.com/" ++ bucketName ++ "/" ++ destination

/-- The sequential upload loop of the directory branch of `deploy`: uploads
each destination in order, stopping at the first error. Returns the value
of the loop (`urls` on success, the first error) and the destinations
whose upload was attempted. `uploadErr d = none` means `bucket.upload`
for destination `d` succeeds (a `makePublic` failure alone is downgraded
to a warning and changes nothing observable here). -/
def uploadAll (uploadErr : String → Option JsError) (bucketName : String) :
    List String → Except JsError (List String) × List String
  | [] => (Except.ok [], [])
  | d :: ds =>
    match uploadErr d with
    | some e => (Except.error e, [d])
    | none =>
      match uploadAll uploadErr bucketName ds with
      | (Except.ok urls, att) => (Except.ok (publicUrl bucketName d :: urls), d :: att)
      | (Except.error e, att) => (Except.error e, d :: att)

/-- The body of the `try` block of `deploy` (gcs-deploy.ts, lines 235-250):
single file, directory loop, or the `sourcePath must be a file or
directory` throw. Also returns the destinations whose upload was
attempted. `StatResult.missing` never reaches this body (statSync throws
first); it is mapped to the same ENOENT error for totality. -/
def deployTryBody (uploadErr : String → Option JsError) (sourcePath bucketName
    destinationPrefix : String) : StatResult → Except JsError (List String) × List String
  | StatResult.missing => (Except.error (enoentError sourcePath), [])
  | StatResult.statFile =>
    let destination := pathJoin destinationPrefix (pathBasename sourcePath)
    (match uploadErr destination with
     | some e => (Except.error e, [destination])
     | none => (Except.ok [publicUrl bucketName destination], [destination]))
  | StatResult.statDir relFiles =>
    uploadAll uploadErr bucketName (relFiles.map (pathJoin destinationPrefix))
  | StatResult.special =>
    (Except.error { code := none, message := some "sourcePath must be a file or directory" }, [])

/-- What a `deploy` call produces: its result (the URL list, or the thrown
error), the destinations whose upload was attempted, and how many times
the login flow was launched. -/
structure DeployOut where
  result : Except JsError (List String)
  uploads : List String
  loginCalls : Nat
deriving Repr

/-- `deploy` (gcs-deploy.ts, lines 230-276): `fs.statSync` outside the try
block (a missing path propagates its ENOENT error unclassified), then the
try body, then the catch block classifying the error and, for an auth
error, running the recovery branch (which launches the login flow once). -/
def deploy (uploadErr : String → Option JsError) (auth : AuthFlowOutcome)
    (stat : StatResult) (sourcePath bucketName destinationPrefix : String) : DeployOut :=
  if stat = StatResult.missing then
    { result := Except.error (enoentError sourcePath), uploads := [], loginCalls := 0 }
  else
    match deployTryBody uploadErr sourcePath bucketName destinationPrefix stat with
    | (Except.ok urls, att) => { result := Except.ok urls, uploads := att, loginCalls := 0 }
    | (Except.error e, att) =>
      if isAuthError e then
        { result := authRecoveryThrow auth (jsMessage e), uploads := att, loginCalls := 1 }
      else
        { result := Except.error e, uploads := att, loginCalls := 0 }

/-- The external collaborators of one tool call: the outcome of
`fs.writeFileSync` inside `ConfigManager.save` (`some e` = the write
throws `e`), the value of `Math.random().toString(36)` consumed by the
subfolder generator, the identity string the probe resolves to (the probe
never rejects), `fs.statSync` per path, the object-store upload outcome
per destination key, and the login-flow outcome. -/
structure ServerEnv where
  writeErr : Option JsError
  randStr : String
  identity : String
  stat : String → StatResult
  uploadErr : String → Option JsError
  auth : AuthFlowOutcome

/-- Observable side effects of one tool call: destination keys whose
upload was attempted, number of identity-probe invocations, number of
login-flow launches, and the resolved destination prefix (the value the
pre-flight log line and the destination keys use), when one was
computed. -/
structure Effects where
  uploads : List String := []
  identityCalls : Nat := 0
  loginCalls : Nat := 0
  finalPfx : Option String := none
deriving Repr, DecidableEq

/-- How one tool call ends: a structured response (with its error flag), a
thrown protocol-level `McpError` (invalid params / method not found), or
an uncaught exception escaping the handler. -/
inductive ToolOutcome where
  | response (text : String) (isError : Bool)
  | invalidParams (msg : String)
  | methodNotFound (msg : String)
  | thrown (e : JsError)
deriving Repr, DecidableEq

/-- A tool call's outcome together with the stored configuration after the
call and the observable side effects. -/
structure HandlerResult where
  outcome : ToolOutcome
  config : GcsDeployerConfig
  effects : Effects
deriving Repr, DecidableEq

/-- The argument bag of a tool call (`request.params.arguments`): every
field possibly absent (`none` = the argument is `undefined`). -/
structure CallArgs where
  sourcePath : Option String := none
  bucketName : Option String := none
  destinationPrefix : Option String := none
  projectId : Option String := none
  subfolder : Option String := none
deriving Repr, DecidableEq

/-- The confirmation text of `configure_gcs` (gcs-deploy.ts, line 124):
`undefined` interpolates as the text "undefined"; the project and
subfolder clauses appear only when the argument is truthy. -/
def configureText (args : CallArgs) : String :=
  "Configuration saved for bucket '" ++ jsToStr args.bucketName ++ "'" ++
    (match args.projectId with
     | some s => if s = "" then "" else " in project '" ++ s ++ "'"
     | none => "") ++
    (match args.subfolder with
     | some s => if s = "" then "" else " with subfolder '" ++ s ++ "'"
     | none => "") ++ "."

/-- The `configure_gcs` handler (gcs-deploy.ts, lines 113-128): calls
`ConfigManager.save` with an object literal that always carries all three
keys (each possibly `undefined`), then returns the confirmation. There is
no try/catch: a save failure escapes the handler as a thrown exception,
leaving the stored record unchanged. -/
def handleConfigure (env : ServerEnv) (cfg : GcsDeployerConfig) (args : CallArgs) :
    HandlerResult :=
  match env.writeErr with
  | some e => { outcome := ToolOutcome.thrown e, config := cfg, effects := {} }
  | none =>
    let upd : ConfigUpdate :=
      { bucketName := some args.bucketName
        projectId := some args.projectId
        subfolder := some args.subfolder }
    { outcome := ToolOutcome.response (configureText args) false
      config := ConfigManager.save cfg upd
      effects := {} }

/-- The generation arm of the sticky-subfolder logic (gcs-deploy.ts, lines
149-156): `site-` + `Math.random().toString(36).substring(2, 8)`, persisted
with an object literal holding only the `subfolder` key. A save failure
escapes as a thrown exception. -/
def stickyGenerate (writeErr : Option JsError) (randStr : String)
    (cfg : GcsDeployerConfig) : Except JsError (String × GcsDeployerConfig) :=
  let randomId := jsSubstring randStr 2 8
  let generated := "site-" ++ randomId
  match writeErr with
  | some e => Except.error e
  | none => Except.ok (generated, ConfigManager.save cfg { subfolder := some (some generated) })

/-- The sticky-subfolder resolution (gcs-deploy.ts, lines 144-157): a
truthy request prefix is used verbatim; else a truthy stored subfolder is
reused; else a fresh one is generated and persisted. -/
def stickyResolve (writeErr : Option JsError) (randStr : String)
    (cfg : GcsDeployerConfig) (destinationPrefix : String) :
    Except JsError (String × GcsDeployerConfig) :=
  if destinationPrefix ≠ "" then Except.ok (destinationPrefix, cfg)
  else if jsTruthy cfg.subfolder then Except.ok (jsOrEmpty cfg.subfolder, cfg)
  else stickyGenerate writeErr randStr cfg

/-- The missing-configuration response text (gcs-deploy.ts, line 173). -/
def missingConfigText (missingItems : List String) : String :=
  "GCS configuration missing: " ++ String.intercalate ", " missingItems ++
    ". \nPlease run the \"configure_gcs\" tool to set your Google Cloud Project ID and GCS Bucket Name."

/-- The pre-flight log line (gcs-deploy.ts, line 185). -/
def preflightText (sourcePath bucketName projectId identity finalDestinationPrefix : String) :
    String :=
  "Deploying '" ++ sourcePath ++ "' to bucket '" ++ bucketName ++ "' in project '" ++
    projectId ++ "' using identity '" ++ identity ++ "' (subfolder: '" ++
    finalDestinationPrefix ++ "')..."

/-- The `deploy_to_gcs` handler (gcs-deploy.ts, lines 130-208), in source
order: bucket fallback to the stored bucket, project from the store,
sticky-subfolder resolution (which may persist a generated subfolder, or
throw on a save failure), the `sourcePath` invalid-params check, the
missing-configuration check, then the try block: identity probe, pre-flight
line, `deploy`, and the catch wrapping any deploy error into an
error-flagged response. -/
def handleDeploy (env : ServerEnv) (cfg : GcsDeployerConfig) (args : CallArgs) :
    HandlerResult :=
  let destinationPrefix := jsOrEmpty args.destinationPrefix
  let bucketName := if jsTruthy args.bucketName then args.bucketName else cfg.bucketName
  let projectId := cfg.projectId
  match stickyResolve env.writeErr env.randStr cfg destinationPrefix with
  | Except.error e => { outcome := ToolOutcome.thrown e, config := cfg, effects := {} }
  | Except.ok (finalDestinationPrefix, cfg1) =>
    if jsTruthy args.sourcePath = false then
      { outcome := ToolOutcome.invalidParams "Missing required argument: sourcePath"
        config := cfg1
        effects := { finalPfx := some finalDestinationPrefix } }
    else
      let missingItems :=
        (if jsTruthy bucketName then [] else ["bucketName"]) ++
          (if jsTruthy projectId then [] else ["projectId"])
      if 0 < missingItems.length then
        { outcome := ToolOutcome.response (missingConfigText missingItems) true
          config := cfg1
          effects := { finalPfx := some finalDestinationPrefix } }
      else
        let sp := jsOrEmpty args.sourcePath
        let bn := jsOrEmpty bucketName
        let pj := jsOrEmpty projectId
        let preflight := preflightText sp bn pj env.identity finalDestinationPrefix
        let dep := deploy env.uploadErr env.auth (env.stat sp) sp bn finalDestinationPrefix
        match dep.result with
        | Except.ok urls =>
          { outcome := ToolOutcome.response
              (preflight ++ "\n\nSuccessfully deployed to GCS. Public URLs:\n" ++
                String.intercalate "\n" urls) false
            config := cfg1
            effects := { uploads := dep.uploads, identityCalls := 1
                         loginCalls := dep.loginCalls, finalPfx := some finalDestinationPrefix } }
        | Except.error e =>
          { outcome := ToolOutcome.response ("Error deploying to GCS: " ++ jsMessage e) true
            config := cfg1
            effects := { uploads := dep.uploads, identityCalls := 1
                         loginCalls := dep.loginCalls, finalPfx := some finalDestinationPrefix } }

/-- The CallToolRequest dispatcher (gcs-deploy.ts, lines 112-211): the two
tools, and the protocol-level method-not-found fault for any other name. -/
def handleCallTool (env : ServerEnv) (cfg : GcsDeployerConfig) (name : String)
    (args : CallArgs) : HandlerResult :=
  if name = "configure_gcs" then handleConfigure env cfg args
  else if name = "deploy_to_gcs" then handleDeploy env cfg args
  else { outcome := ToolOutcome.methodNotFound "Unknown tool", config := cfg, effects := {} }

/-- A lowercase base-36 digit, the only characters in the fractional part
of `Number.prototype.toString(36)`. -/
def isBase36Digit (c : Char) : Bool :=
  ('0' ≤ c && c ≤ '9') || ('a' ≤ c && c ≤ 'z')

/-- The strings `Math.random().toString(36)` can produce: `"0"` for the
value 0, and otherwise `"0."` followed by a non-empty run of lowercase
base-36 digits (V8 prints radix-36 numbers in positional notation; for a
value with a terminating base-36 expansion the run is short — e.g.
`(0.5).toString(36)` is `"0.i"`). -/
def isRandom36Str (s : String) : Bool :=
  s == "0" ||
    (decide (3 ≤ s.toList.length) && s.toList.take 2 == ['0', '.'] &&
      (s.toList.drop 2).all isBase36Digit)

/-- The spec's pattern `site-[0-9a-z]{6}`: the literal `site-` followed by
exactly six lowercase base-36 characters. -/
def matchesSitePattern (s : String) : Bool :=
  s.toList.take 5 == "site-".toList &&
    (s.toList.drop 5).length == 6 && (s.toList.drop 5).all isBase36Digit

/-- A parsed JSON value, as `JSON.parse` can return it (the numeric payload
is irrelevant to the claims and kept as an integer). -/
inductive JVal where
  | jnull
  | jbool (b : Bool)
  | jnum (n : Int)
  | jstr (s : String)
  | jarr (elems : List JVal)
  | jobj (fields : List (String × JVal))

/-- The state of the on-disk config file as `ConfigManager.load` observes
it: absent (`fs.existsSync` false), unreadable (`readFileSync` throws),
unparseable (`JSON.parse` throws), or parsed to a JSON value. -/
inductive ConfigFile where
  | absent
  | unreadable
  | unparseable
  | parsed (v : JVal)

/-- `ConfigManager.load` (config.ts, lines 22-32) over the raw file state:
an absent file returns `{}`; a read or parse error is caught and returns
`{}`; a successful parse returns the parsed value as-is, with no shape
validation. -/
def ConfigOnDisk.load : ConfigFile → JVal
  | ConfigFile.absent => JVal.jobj []
  | ConfigFile.unreadable => JVal.jobj []
  | ConfigFile.unparseable => JVal.jobj []
  | ConfigFile.parsed v => v

/-- First binding of a key in a JS object's field list. -/
def lookupField : List (String × JVal) → String → Option JVal
  | [], _ => none
  | (k, v) :: rest, key => if k = key then some v else lookupField rest key

/-- The result of a JS property read that does not throw: `undefined` or a
value. -/
inductive JsProp where
  | undef
  | val (v : JVal)

/-- JS property access `v[key]`: throws a TypeError on `null`; returns the
field (or `undefined`) on an object; returns `undefined` on any other
primitive or array (boxed, no own property of that name). -/
def jsGetProp : JVal → String → Except String JsProp
  | JVal.jnull, _ => Except.error "TypeError: Cannot read properties of null"
  | JVal.jobj fields, key =>
    Except.ok (match lookupField fields key with
               | some v => JsProp.val v
               | none => JsProp.undef)
  | _, _ => Except.ok JsProp.undef

/-- `ConfigManager.getBucket` (config.ts, line 48): `this.load().bucketName`. -/
def ConfigOnDisk.getBucket (f : ConfigFile) : Except String JsProp :=
  jsGetProp (ConfigOnDisk.load f) "bucketName"

/-- `ConfigManager.getProject` (config.ts, line 52): `this.load().projectId`. -/
def ConfigOnDisk.getProject (f : ConfigFile) : Except String JsProp :=
  jsGetProp (ConfigOnDisk.load f) "projectId"

/-- `ConfigManager.getSubfolder` (config.ts, line 56): `this.load().subfolder`. -/
def ConfigOnDisk.getSubfolder (f : ConfigFile) : Except String JsProp :=
  jsGetProp (ConfigOnDisk.load f) "subfolder"

/-- A fixed environment for concrete runs: no write failure, a typical
random string, a probe identity, every path a regular file, every upload
succeeding, login flow exiting 0. -/
def envOk : ServerEnv :=
  { writeErr := none, randStr := "0.k7q2m4", identity := "dev@example.com",
    stat := fun _ => StatResult.statFile, uploadErr := fun _ => none,
    auth := AuthFlowOutcome.exited 0 }

/-- `envOk` with a file system on which every path is missing. -/
def envMissingPath : ServerEnv :=
  { envOk with stat := fun _ => StatResult.missing }

/- ### Helper lemmas -/

theorem handleCallTool_configure (env : ServerEnv) (cfg : GcsDeployerConfig)
    (args : CallArgs) :
    handleCallTool env cfg "configure_gcs" args = handleConfigure env cfg args := rfl

theorem handleCallTool_deploy (env : ServerEnv) (cfg : GcsDeployerConfig)
    (args : CallArgs) :
    handleCallTool env cfg "deploy_to_gcs" args = handleDeploy env cfg args := rfl

theorem jsOrEmpty_of_not_truthy {x : Option String} (h : jsTruthy x = false) :
    jsOrEmpty x = "" := by
  cases x with
  | none => rfl
  | some s =>
    simp only [jsTruthy, decide_eq_false_iff_not, not_not] at h
    simp [jsOrEmpty, h]

theorem stickyResolve_ok_of_writeErr_none (randStr : String)
    (cfg : GcsDeployerConfig) (dp : String) :
    ∃ fp cfg1, stickyResolve none randStr cfg dp = Except.ok (fp, cfg1) := by
  by_cases h1 : dp = ""
  · by_cases h2 : jsTruthy cfg.subfolder
    · exact ⟨jsOrEmpty cfg.subfolder, cfg, by simp [stickyResolve, h1, h2]⟩
    · exact ⟨"site-" ++ jsSubstring randStr 2 8,
        ConfigManager.save cfg
          { subfolder := some (some ("site-" ++ jsSubstring randStr 2 8)) },
        by simp [stickyResolve, stickyGenerate, h1, h2]⟩
  · exact ⟨dp, cfg, by simp [stickyResolve, h1]⟩

theorem stickyResolve_generate (randStr : String) (cfg : GcsDeployerConfig)
    (h : jsTruthy cfg.subfolder = false) :
    stickyResolve none randStr cfg "" =
      Except.ok ("site-" ++ jsSubstring randStr 2 8,
        { projectId := cfg.projectId, bucketName := cfg.bucketName,
          subfolder := some ("site-" ++ jsSubstring randStr 2 8) }) := by
  simp [stickyResolve, stickyGenerate, h, ConfigManager.save, spreadField]

theorem stickyResolve_stored (writeErr : Option JsError) (randStr : String)
    (cfg : GcsDeployerConfig) (h : jsTruthy cfg.subfolder = true) :
    stickyResolve writeErr randStr cfg "" =
      Except.ok (jsOrEmpty cfg.subfolder, cfg) := by
  simp [stickyResolve, h]

theorem handleDeploy_after_sticky (env : ServerEnv) (cfg : GcsDeployerConfig)
    (args : CallArgs) (fp : String) (cfg1 : GcsDeployerConfig)
    (h : stickyResolve env.writeErr env.randStr cfg (jsOrEmpty args.destinationPrefix) =
      Except.ok (fp, cfg1)) :
    (handleDeploy env cfg args).config = cfg1 ∧
      (handleDeploy env cfg args).effects.finalPfx = some fp := by
  constructor <;>
    · simp only [handleDeploy, h]
      repeat' split <;> try rfl

theorem siteName_ne_empty (t : String) : "site-" ++ t ≠ "" := by
  intro h
  have hl : ("site-" ++ t).length = 5 + t.length := by
    rw [String.length_append]
    rfl
  rw [h] at hl
  simp only [String.length_empty] at hl
  omega

theorem subsearch_iff_infix (needle haystack : List Char) :
    subsearch needle haystack = true ↔ needle <:+: haystack := by
  induction haystack with
  | nil =>
    simp [subsearch, List.isEmpty_iff, List.infix_nil]
  | cons c t ih =>
    simp [subsearch, List.infix_cons_iff, ih, List.isPrefixOf_iff_prefix]

theorem jsSubstring_of_rand36 (s : String) (h : isRandom36Str s = true) :
    (jsSubstring s 2 8).length ≤ 6 ∧
      (∀ c ∈ (jsSubstring s 2 8).toList, isBase36Digit c = true) ∧
      (8 ≤ s.toList.length → (jsSubstring s 2 8).length = 6) := by
  simp only [isRandom36Str, Bool.or_eq_true, Bool.and_eq_true, beq_iff_eq,
    decide_eq_true_eq, List.all_eq_true] at h
  rcases h with h | ⟨⟨hlen, htake⟩, hall⟩
  · subst h
    refine ⟨by decide, ?_, ?_⟩
    · intro c hc
      simp [jsSubstring] at hc
    · intro h8
      simp at h8
  · have e1 : min (min 2 s.toList.length) (min 8 s.toList.length) = 2 := by omega
    have e2 : max (min 2 s.toList.length) (min 8 s.toList.length) =
        min 8 s.toList.length := by omega
    have hsub : jsSubstring s 2 8 =
        String.mk ((s.toList.drop 2).take (min 8 s.toList.length - 2)) := by
      simp only [jsSubstring, e1, e2]
    rw [hsub]
    have hlt : ((s.toList.drop 2).take (min 8 s.toList.length - 2)).length =
        min (min 8 s.toList.length - 2) (s.toList.length - 2) := by
      rw [List.length_take, List.length_drop]
    refine ⟨?_, ?_, ?_⟩
    · show ((s.toList.drop 2).take (min 8 s.toList.length - 2)).length ≤ 6
      omega
    · intro c hc
      have hc2 : c ∈ s.toList.drop 2 := List.take_subset _ _ hc
      exact hall c hc2
    · intro h8
      show ((s.toList.drop 2).take (min 8 s.toList.length - 2)).length = 6
      omega

/- ### Claims -/

/-- C1: the claim says two sequential partial `configure_gcs` saves merge
(`configure_gcs({bucketName:"b1"})` then `configure_gcs({projectId:"p1"})`
then `load()` yields `{bucketName:"b1", projectId:"p1"}`). The code
violates it: the handler passes an object literal whose absent arguments
are present as `undefined`-valued keys, the spread in `ConfigManager.save`
copies them over the stored values, and `JSON.stringify` then drops them —
so the second call erases the first call's bucketName. This theorem
evaluates the code at the failing input: the final record is
`{projectId:"p1"}`, the bucket is gone. -/
theorem C1_sequential_partial_saves_lose_bucket :
    (handleCallTool envOk
        ((handleCallTool envOk {} "configure_gcs" { bucketName := some "b1" }).config)
        "configure_gcs" { projectId := some "p1" }).config =
      { projectId := some "p1", bucketName := none, subfolder := none } := rfl

/-- C2: the claim says a login flow exiting 0 makes the deployment fail
with the constructed retry message alone. In the code the constructed
`throw` sits inside the `try` whose `catch (authError)` re-wraps every
error, so even on exit 0 the surfaced message is the combining one
(`Authentication failed and could not launch gcloud: <constructed>.
Original error: <original>`), not the constructed message. This theorem
evaluates the code at the failing input (auth-classified upload error,
login flow exits 0). -/
theorem C2_exit_zero_message_is_wrapped :
    (deploy (fun _ => some { code := none, message := some authSubstringCreds })
        (AuthFlowOutcome.exited 0) StatResult.statFile "/tmp/a.txt" "b" "pfx").result =
      Except.error
        { code := none
          message := some ("Authentication failed and could not launch gcloud: " ++
            constructedAuthMsg ++ ". Original error: " ++ authSubstringCreds) } ∧
    ("Authentication failed and could not launch gcloud: " ++ constructedAuthMsg ++
        ". Original error: " ++ authSubstringCreds) ≠ constructedAuthMsg := by
  refine ⟨rfl, ?_⟩
  decide

/-- C3 counterexample: a `configure_gcs` call omitting the required
`bucketName` does NOT raise a protocol-level invalid-params fault — the
handler never checks it and returns a normal confirmation (interpolating
the text `undefined`). -/
theorem C3_configure_missing_bucket_no_fault :
    (handleCallTool envOk {} "configure_gcs" {}).outcome =
      ToolOutcome.response "Configuration saved for bucket 'undefined'." false := rfl

/-- C3 amended: only `deploy_to_gcs` enforces its required argument: a
call omitting `sourcePath` raises the protocol-level invalid-params
fault, while a `configure_gcs` call omitting `bucketName` raises nothing
and returns a normal (non-error-flagged) confirmation response. -/
theorem C3_required_argument_enforcement (env : ServerEnv)
    (cfg : GcsDeployerConfig) (args : CallArgs) (hw : env.writeErr = none) :
    (args.sourcePath = none →
      (handleCallTool env cfg "deploy_to_gcs" args).outcome =
        ToolOutcome.invalidParams "Missing required argument: sourcePath") ∧
    (args.bucketName = none →
      (handleCallTool env cfg "configure_gcs" args).outcome =
        ToolOutcome.response (configureText args) false) := by
  constructor
  · intro hs
    obtain ⟨fp, cfg1, hsr⟩ :=
      stickyResolve_ok_of_writeErr_none env.randStr cfg (jsOrEmpty args.destinationPrefix)
    rw [handleCallTool_deploy]
    simp [handleDeploy, hw, hsr, hs, jsTruthy]
  · intro _
    rw [handleCallTool_configure]
    simp [handleConfigure, hw]

/-- C3 witness: the amended theorem at concrete inputs. -/
theorem C3_required_argument_enforcement_witness :
    (handleCallTool envOk {} "deploy_to_gcs" {}).outcome =
      ToolOutcome.invalidParams "Missing required argument: sourcePath" ∧
    (handleCallTool envOk {} "configure_gcs" { projectId := some "p1" }).outcome =
      ToolOutcome.response (configureText { projectId := some "p1" }) false :=
  ⟨(C3_required_argument_enforcement envOk {} {} rfl).1 rfl,
   (C3_required_argument_enforcement envOk {} { projectId := some "p1" } rfl).2 rfl⟩

theorem deploy_missing (uploadErr : String → Option JsError)
    (auth : AuthFlowOutcome) (sourcePath bucketName dp : String) :
    deploy uploadErr auth StatResult.missing sourcePath bucketName dp =
      { result := Except.error (enoentError sourcePath), uploads := [], loginCalls := 0 } := by
  simp [deploy]

/-- C4 counterexample: a `deploy_to_gcs` call on a missing sourcePath (with
a resolvable configuration) invokes the identity probe once — the claim
says the call fails before the identity probe is invoked, so the claim is
false at this input. The call does fail, with zero uploads. -/
theorem C4_probe_runs_before_source_validation :
    (handleCallTool envMissingPath { projectId := some "p", bucketName := some "b" }
        "deploy_to_gcs"
        { sourcePath := some "/nope", destinationPrefix := some "pfx" }).effects.identityCalls = 1 ∧
    (handleCallTool envMissingPath { projectId := some "p", bucketName := some "b" }
        "deploy_to_gcs"
        { sourcePath := some "/nope", destinationPrefix := some "pfx" }).outcome =
      ToolOutcome.response
        "Error deploying to GCS: ENOENT: no such file or directory, stat '/nope'" true :=
  ⟨rfl, rfl⟩

/-- C4 amended: a `deploy_to_gcs` call whose sourcePath does not exist
(and whose bucket and project resolve) fails with the ENOENT/InvalidSource
error before any upload call — zero uploads, no login launch — but only
after the identity probe has been invoked once; the probe is not skipped. -/
theorem C4_missing_source_fails_before_upload (env : ServerEnv)
    (cfg : GcsDeployerConfig) (args : CallArgs) (hw : env.writeErr = none)
    (hs : jsTruthy args.sourcePath = true)
    (hb : jsTruthy (if jsTruthy args.bucketName then args.bucketName else cfg.bucketName) = true)
    (hp : jsTruthy cfg.projectId = true)
    (hm : env.stat (jsOrEmpty args.sourcePath) = StatResult.missing) :
    (handleCallTool env cfg "deploy_to_gcs" args).outcome =
      ToolOutcome.response
        ("Error deploying to GCS: " ++ jsMessage (enoentError (jsOrEmpty args.sourcePath))) true ∧
    (handleCallTool env cfg "deploy_to_gcs" args).effects.uploads = [] ∧
    (handleCallTool env cfg "deploy_to_gcs" args).effects.loginCalls = 0 ∧
    (handleCallTool env cfg "deploy_to_gcs" args).effects.identityCalls = 1 := by
  obtain ⟨fp, cfg1, hsr⟩ :=
    stickyResolve_ok_of_writeErr_none env.randStr cfg (jsOrEmpty args.destinationPrefix)
  rw [handleCallTool_deploy]
  simp [handleDeploy, hw, hsr, hs, hb, hp, hm, deploy_missing]

/-- C4 witness: the amended theorem at the concrete missing-path input. -/
theorem C4_missing_source_fails_before_upload_witness :
    (handleCallTool envMissingPath { projectId := some "p", bucketName := some "b" }
        "deploy_to_gcs" { sourcePath := some "/gone" }).outcome =
      ToolOutcome.response
        ("Error deploying to GCS: " ++ jsMessage (enoentError (jsOrEmpty (some "/gone")))) true ∧
    (handleCallTool envMissingPath { projectId := some "p", bucketName := some "b" }
        "deploy_to_gcs" { sourcePath := some "/gone" }).effects.uploads = [] ∧
    (handleCallTool envMissingPath { projectId := some "p", bucketName := some "b" }
        "deploy_to_gcs" { sourcePath := some "/gone" }).effects.loginCalls = 0 ∧
    (handleCallTool envMissingPath { projectId := some "p", bucketName := some "b" }
        "deploy_to_gcs" { sourcePath := some "/gone" }).effects.identityCalls = 1 :=
  C4_missing_source_fails_before_upload envMissingPath
    { projectId := some "p", bucketName := some "b" }
    { sourcePath := some "/gone" } rfl rfl rfl rfl rfl

/-- C6: a `deploy_to_gcs` call (with sourcePath supplied) where bucketName
is falsy in both the request and the stored config and projectId is falsy
in the stored config returns the error-flagged missing-configuration
response naming both `bucketName` and `projectId`, with zero upload calls
and no identity probe. -/
theorem C6_missing_config_names_both_and_uploads_nothing (env : ServerEnv)
    (cfg : GcsDeployerConfig) (args : CallArgs) (hw : env.writeErr = none)
    (hs : jsTruthy args.sourcePath = true)
    (hab : jsTruthy args.bucketName = false)
    (hcb : jsTruthy cfg.bucketName = false)
    (hcp : jsTruthy cfg.projectId = false) :
    (handleCallTool env cfg "deploy_to_gcs" args).outcome =
      ToolOutcome.response
        "GCS configuration missing: bucketName, projectId. \nPlease run the \"configure_gcs\" tool to set your Google Cloud Project ID and GCS Bucket Name."
        true ∧
    (handleCallTool env cfg "deploy_to_gcs" args).effects.uploads = [] ∧
    (handleCallTool env cfg "deploy_to_gcs" args).effects.identityCalls = 0 := by
  obtain ⟨fp, cfg1, hsr⟩ :=
    stickyResolve_ok_of_writeErr_none env.randStr cfg (jsOrEmpty args.destinationPrefix)
  rw [handleCallTool_deploy]
  simp [handleDeploy, hw, hsr, hs, hab, hcb, hcp, missingConfigText]
  rfl

/-- C6 witness: the theorem at a concrete empty configuration. -/
theorem C6_missing_config_witness :
    (handleCallTool envOk {} "deploy_to_gcs" { sourcePath := some "/a.txt" }).outcome =
      ToolOutcome.response
        "GCS configuration missing: bucketName, projectId. \nPlease run the \"configure_gcs\" tool to set your Google Cloud Project ID and GCS Bucket Name."
        true ∧
    (handleCallTool envOk {} "deploy_to_gcs" { sourcePath := some "/a.txt" }).effects.uploads = [] ∧
    (handleCallTool envOk {} "deploy_to_gcs"
        { sourcePath := some "/a.txt" }).effects.identityCalls = 0 :=
  C6_missing_config_names_both_and_uploads_nothing envOk {}
    { sourcePath := some "/a.txt" } rfl rfl rfl rfl rfl

/-- `envOk` with the random value 0.5, whose base-36 string is `0.i`. -/
def envShortRand : ServerEnv :=
  { envOk with randStr := "0.i" }

/-- C5 counterexample: with `Math.random() = 0.5` (so
`toString(36) = "0.i"`, a string the random generator can produce) the
generated subfolder is `site-i`, which does not match the claimed pattern
`site-[0-9a-z]{6}` of exactly six characters. -/
theorem C5_short_random_token_breaks_pattern :
    isRandom36Str "0.i" = true ∧
    (handleCallTool envShortRand { projectId := some "p", bucketName := some "b" }
        "deploy_to_gcs" { sourcePath := some "/a.txt" }).effects.finalPfx = some "site-i" ∧
    matchesSitePattern "site-i" = false :=
  ⟨rfl, rfl, rfl⟩

/-- C5 amended: with no persisted subfolder and no explicit
destinationPrefix, two consecutive `deploy_to_gcs` calls use the same
generated subfolder (it is persisted by the first call), and the generated
token after `site-` consists of at most six lowercase base-36 characters —
exactly six whenever the random value's base-36 string has at least six
fractional digits (the typical case), fewer when the expansion terminates
early. -/
theorem C5_sticky_subfolder_and_token_shape (env : ServerEnv)
    (cfg : GcsDeployerConfig) (args1 args2 : CallArgs)
    (hw : env.writeErr = none) (hr : isRandom36Str env.randStr = true)
    (hsub : jsTruthy cfg.subfolder = false)
    (hd1 : jsTruthy args1.destinationPrefix = false)
    (hd2 : jsTruthy args2.destinationPrefix = false) :
    ∃ tok : String,
      (handleCallTool env cfg "deploy_to_gcs" args1).effects.finalPfx =
        some ("site-" ++ tok) ∧
      (handleCallTool env (handleCallTool env cfg "deploy_to_gcs" args1).config
          "deploy_to_gcs" args2).effects.finalPfx = some ("site-" ++ tok) ∧
      tok.length ≤ 6 ∧ (∀ c ∈ tok.toList, isBase36Digit c = true) ∧
      (8 ≤ env.randStr.toList.length → tok.length = 6) := by
  have hde1 := jsOrEmpty_of_not_truthy hd1
  have hde2 := jsOrEmpty_of_not_truthy hd2
  refine ⟨jsSubstring env.randStr 2 8, ?_⟩
  have hsr1 : stickyResolve env.writeErr env.randStr cfg
      (jsOrEmpty args1.destinationPrefix) =
      Except.ok ("site-" ++ jsSubstring env.randStr 2 8,
        { projectId := cfg.projectId, bucketName := cfg.bucketName,
          subfolder := some ("site-" ++ jsSubstring env.randStr 2 8) }) := by
    rw [hw, hde1]
    exact stickyResolve_generate env.randStr cfg hsub
  have h1 := handleDeploy_after_sticky env cfg args1 _ _ hsr1
  have htr : jsTruthy (some ("site-" ++ jsSubstring env.randStr 2 8)) = true := by
    simp [jsTruthy, siteName_ne_empty]
  have hsr2 : stickyResolve env.writeErr env.randStr
      { projectId := cfg.projectId, bucketName := cfg.bucketName,
        subfolder := some ("site-" ++ jsSubstring env.randStr 2 8) }
      (jsOrEmpty args2.destinationPrefix) =
      Except.ok ("site-" ++ jsSubstring env.randStr 2 8,
        { projectId := cfg.projectId, bucketName := cfg.bucketName,
          subfolder := some ("site-" ++ jsSubstring env.randStr 2 8) }) := by
    rw [hw, hde2, stickyResolve_stored none env.randStr _ htr]
    rfl
  have h2 := handleDeploy_after_sticky env
    { projectId := cfg.projectId, bucketName := cfg.bucketName,
      subfolder := some ("site-" ++ jsSubstring env.randStr 2 8) } args2 _ _ hsr2
  obtain ⟨hlen, hchars, hexact⟩ := jsSubstring_of_rand36 env.randStr hr
  rw [handleCallTool_deploy, handleCallTool_deploy, h1.1]
  exact ⟨h1.2, h2.2, hlen, hchars, hexact⟩

/-- C5 witness: the amended theorem at a concrete eight-character random
string and an empty stored configuration. -/
theorem C5_sticky_subfolder_witness :
    ∃ tok : String,
      (handleCallTool envOk {} "deploy_to_gcs"
          { sourcePath := some "/a.txt" }).effects.finalPfx = some ("site-" ++ tok) ∧
      (handleCallTool envOk
          (handleCallTool envOk {} "deploy_to_gcs" { sourcePath := some "/a.txt" }).config
          "deploy_to_gcs" { sourcePath := some "/b.txt" }).effects.finalPfx =
        some ("site-" ++ tok) ∧
      tok.length ≤ 6 ∧ (∀ c ∈ tok.toList, isBase36Digit c = true) ∧
      (8 ≤ envOk.randStr.toList.length → tok.length = 6) :=
  C5_sticky_subfolder_and_token_shape envOk {}
    { sourcePath := some "/a.txt" } { sourcePath := some "/b.txt" }
    rfl rfl rfl rfl rfl

theorem ne_empty_of_infix_auth {m : String}
    (h : authSubstringCreds.toList <:+: m.toList ∨
      authSubstringAnon.toList <:+: m.toList) : m ≠ "" := by
  intro he
  subst he
  rcases h with h | h <;> · have hl := h.length_le; revert hl; decide

/-- C7: an upload error is classified as an AuthError exactly when its
status code is 401 or its message contains one of the two known
substrings; every error not so classified leaves `deploy` unchanged — the
original error is re-thrown as-is and the login flow is never launched. -/
theorem C7_classification_and_propagation :
    (∀ e : JsError, isAuthError e = true ↔
      (e.code = some 401 ∨ ∃ m, e.message = some m ∧
        (authSubstringCreds.toList <:+: m.toList ∨
          authSubstringAnon.toList <:+: m.toList))) ∧
    (∀ (uploadErr : String → Option JsError) (auth : AuthFlowOutcome)
        (stat : StatResult) (sourcePath bucketName dp : String)
        (e : JsError) (att : List String),
      stat ≠ StatResult.missing →
      deployTryBody uploadErr sourcePath bucketName dp stat = (Except.error e, att) →
      isAuthError e = false →
      deploy uploadErr auth stat sourcePath bucketName dp =
        { result := Except.error e, uploads := att, loginCalls := 0 }) := by
  constructor
  · intro e
    cases hm : e.message with
    | none =>
      simp [isAuthError, hm]
    | some m =>
      simp only [isAuthError, hm, Bool.or_eq_true, Bool.and_eq_true, beq_iff_eq,
        decide_eq_true_eq, strIncludes, subsearch_iff_infix, Option.some.injEq,
        exists_eq_left']
      constructor
      · rintro (h401 | ⟨_, hinf⟩)
        · exact Or.inl h401
        · exact Or.inr hinf
      · rintro (h401 | hinf)
        · exact Or.inl h401
        · exact Or.inr ⟨ne_empty_of_infix_auth hinf, hinf⟩
  · intro uploadErr auth stat sourcePath bucketName dp e att hst hbody hauth
    unfold deploy
    rw [if_neg hst, hbody]
    simp [hauth]

/-- C7 witness: the classifier at a 401 error, and propagation of a
concrete non-auth upload error through `deploy` with no login launch. -/
theorem C7_classification_witness :
    isAuthError { code := some 401, message := none } = true ∧
    deploy (fun _ => some { code := some 500, message := some "quota exceeded" })
        (AuthFlowOutcome.exited 0) (StatResult.statDir ["a.txt"]) "/srv/site" "b" "p" =
      { result := Except.error { code := some 500, message := some "quota exceeded" }
        uploads := ["p/a.txt"], loginCalls := 0 } :=
  ⟨(C7_classification_and_propagation.1 _).mpr (Or.inl rfl),
   C7_classification_and_propagation.2 _ _ _ _ _ _ _ _ (by decide) rfl rfl⟩

/-- C8 counterexample: a config file whose content is the JSON text `null`
parses successfully, so `load` returns `null` (not an empty record) and
`getBucket` throws a TypeError reading a property of `null`; a file
containing `42` makes `load` return `42` as-is rather than an empty
record. -/
theorem C8_null_file_makes_accessors_throw :
    ConfigOnDisk.getBucket (ConfigFile.parsed JVal.jnull) =
      Except.error "TypeError: Cannot read properties of null" ∧
    ConfigOnDisk.load (ConfigFile.parsed (JVal.jnum 42)) = JVal.jnum 42 ∧
    ConfigOnDisk.load (ConfigFile.parsed (JVal.jnum 42)) ≠ JVal.jobj [] :=
  ⟨rfl, rfl, fun h => JVal.noConfusion h⟩

/-- C8 amended: when the file is absent, unreadable or unparseable, `load`
returns the empty record and never raises; when the file parses, `load`
returns the parsed value unvalidated, and the three accessors raise
exactly when that value is JSON `null` (property access on `null`
throws), never otherwise. -/
theorem C8_load_fails_open_accessors_throw_only_on_null (f : ConfigFile) :
    ((∀ v, f ≠ ConfigFile.parsed v) → ConfigOnDisk.load f = JVal.jobj []) ∧
    (((ConfigOnDisk.getBucket f).isOk = true ∧ (ConfigOnDisk.getProject f).isOk = true ∧
        (ConfigOnDisk.getSubfolder f).isOk = true) ↔
      ConfigOnDisk.load f ≠ JVal.jnull) := by
  cases f with
  | absent =>
    refine ⟨fun _ => rfl, ?_⟩
    simp [ConfigOnDisk.getBucket, ConfigOnDisk.getProject, ConfigOnDisk.getSubfolder,
      ConfigOnDisk.load, jsGetProp, Except.isOk, Except.toBool]
  | unreadable =>
    refine ⟨fun _ => rfl, ?_⟩
    simp [ConfigOnDisk.getBucket, ConfigOnDisk.getProject, ConfigOnDisk.getSubfolder,
      ConfigOnDisk.load, jsGetProp, Except.isOk, Except.toBool]
  | unparseable =>
    refine ⟨fun _ => rfl, ?_⟩
    simp [ConfigOnDisk.getBucket, ConfigOnDisk.getProject, ConfigOnDisk.getSubfolder,
      ConfigOnDisk.load, jsGetProp, Except.isOk, Except.toBool]
  | parsed v =>
    refine ⟨fun h => absurd rfl (h v), ?_⟩
    cases v <;>
      simp [ConfigOnDisk.getBucket, ConfigOnDisk.getProject, ConfigOnDisk.getSubfolder,
        ConfigOnDisk.load, jsGetProp, Except.isOk, Except.toBool]

/-- C8 witness: the amended theorem at the absent-file state. -/
theorem C8_load_fails_open_witness :
    ConfigOnDisk.load ConfigFile.absent = JVal.jobj [] :=
  (C8_load_fails_open_accessors_throw_only_on_null ConfigFile.absent).1
    (fun _ h => ConfigFile.noConfusion h)

/-- `envOk` with a failing config-store write. -/
def envWriteFail : ServerEnv :=
  { envOk with
    writeErr := some { code := none, message := some "EACCES: permission denied, open config.json" } }

/-- C9 counterexample: when the config-store write fails, the
`configure_gcs` handler (which has no try/catch around save) ends with the
exception escaping the handler — a protocol-level fault — not with a
structured error-flagged tool response as the claim states. -/
theorem C9_save_failure_is_thrown_not_response :
    (handleCallTool envWriteFail {} "configure_gcs" { bucketName := some "b1" }).outcome =
      ToolOutcome.thrown
        { code := none, message := some "EACCES: permission denied, open config.json" } :=
  rfl

/-- C9 amended: a config-store write failure during `configure_gcs` is
propagated, not swallowed — but as an exception escaping the handler
(surfacing as a protocol-level fault), not as an error-flagged structured
response; the stored record is left unchanged. -/
theorem C9_save_failure_propagates_as_exception (env : ServerEnv)
    (cfg : GcsDeployerConfig) (args : CallArgs) (e : JsError)
    (hw : env.writeErr = some e) :
    handleCallTool env cfg "configure_gcs" args =
      { outcome := ToolOutcome.thrown e, config := cfg, effects := {} } := by
  rw [handleCallTool_configure]
  simp [handleConfigure, hw]

/-- C9 witness: the amended theorem at a concrete failing write. -/
theorem C9_save_failure_witness :
    handleCallTool envWriteFail {} "configure_gcs" { bucketName := some "b1" } =
      { outcome := ToolOutcome.thrown
          { code := none, message := some "EACCES: permission denied, open config.json" }
        config := {}, effects := {} } :=
  C9_save_failure_propagates_as_exception envWriteFail {} { bucketName := some "b1" } _ rfl

/-- C10: on a `deploy_to_gcs` call with no destinationPrefix and no stored
subfolder, the freshly generated subfolder is persisted before any
validation runs — the stored record is mutated even when the same call
then fails, e.g. with the invalid-params fault for a missing sourcePath. -/
theorem C10_subfolder_persisted_before_validation (env : ServerEnv)
    (cfg : GcsDeployerConfig) (args : CallArgs) (hw : env.writeErr = none)
    (hsub : jsTruthy cfg.subfolder = false)
    (hd : jsTruthy args.destinationPrefix = false) :
    (handleCallTool env cfg "deploy_to_gcs" args).config.subfolder =
      some ("site-" ++ jsSubstring env.randStr 2 8) ∧
    (args.sourcePath = none →
      (handleCallTool env cfg "deploy_to_gcs" args).outcome =
        ToolOutcome.invalidParams "Missing required argument: sourcePath") := by
  have hde := jsOrEmpty_of_not_truthy hd
  have hsr : stickyResolve env.writeErr env.randStr cfg (jsOrEmpty args.destinationPrefix) =
      Except.ok ("site-" ++ jsSubstring env.randStr 2 8,
        { projectId := cfg.projectId, bucketName := cfg.bucketName,
          subfolder := some ("site-" ++ jsSubstring env.randStr 2 8) }) := by
    rw [hw, hde]
    exact stickyResolve_generate env.randStr cfg hsub
  constructor
  · rw [handleCallTool_deploy, (handleDeploy_after_sticky env cfg args _ _ hsr).1]
  · intro hs
    rw [handleCallTool_deploy]
    simp [handleDeploy, hsr, hs, jsTruthy]

/-- C10 witness: a call that fails with the missing-sourcePath fault still
persists the generated subfolder. -/
theorem C10_subfolder_persisted_witness :
    (handleCallTool envOk {} "deploy_to_gcs" {}).config.subfolder =
      some ("site-" ++ jsSubstring envOk.randStr 2 8) ∧
    (handleCallTool envOk {} "deploy_to_gcs" {}).outcome =
      ToolOutcome.invalidParams "Missing required argument: sourcePath" :=
  ⟨(C10_subfolder_persisted_before_validation envOk {} {} rfl rfl rfl).1,
   (C10_subfolder_persisted_before_validation envOk {} {} rfl rfl rfl).2 rfl⟩
